import Mathlib

/-!
Verification of the geospatial metrics pipeline of
`src/deer_wintering_analysis_dashboard.py`.

The script is a linear pandas/geopandas pipeline.  We embed the pipeline
from line 49 onward (after the external HTTP fetch and the geopandas
reprojection calls): a record enters the pipeline carrying the area of its
projected geometry in square meters (`gdf_projected.geometry.area`,
line 49) and its WGS84 centroid latitude (`centroids_wgs84.y`, line 55).
Real numbers are modelled by rationals.

Library semantics that the embedding mirrors (the script relies on
`pandas.cut`, `numpy.linspace` and `Series.value_counts`):

* `pd.cut(x, bins, labels)` with the default `right=True` and
  `include_lowest=False` assigns `x` to bin `i` exactly when
  `bins[i] < x <= bins[i+1]`; a value outside every bin (in particular a
  value equal to `bins[0]`) gets no category (NaN).
* Before binning, `pd.cut` validates the edges and raises
  `ValueError: Bin edges must be unique` when the edge array contains
  duplicates.  `np.linspace(m, M, 5)` has duplicate edges exactly when
  `m = M`; when the series is empty, `min()`/`max()` are NaN and the five
  NaN edges are likewise duplicates (pandas' unique treats NaNs as equal),
  so the same error is raised.  Both situations are modelled by the
  `degenerateRange` error.
* `np.linspace(m, M, 5)` returns the edges `m`, `m + (M-m)/4`,
  `m + 2*(M-m)/4`, `m + 3*(M-m)/4`, `M` (the endpoint is set exactly).
* `Series.value_counts()` on a categorical series counts every declared
  category (zero counts included), drops NaN entries, and returns the
  table sorted by count in descending order; `sort_index()` then re-sorts
  the table by the categorical index, i.e. by the declared category order.
* `Series.median()` sorts the values and takes the middle element, or the
  mean of the two middle elements for an even count.
-/

namespace DeerWintering

/-- One wintering-area record as it enters the metric computations:
the projected-geometry area in square meters (line 49) and the WGS84
centroid latitude (line 55). -/
structure Record where
  projArea : ℚ
  centroidLat : ℚ
deriving DecidableEq, Repr

/-- Size categories, in the order of the `labels` list of the size
`pd.cut` call (lines 63-66): Small (< 1 km²), Medium (1-5 km²),
Large (5-10 km²), Very Large (> 10 km²). -/
inductive SizeCategory where
  | small
  | medium
  | large
  | veryLarge
deriving DecidableEq, Repr

/-- Ordinal rank of a size category (its position in the ordered
categorical produced by `pd.cut`). -/
def SizeCategory.rank : SizeCategory → Nat
  | .small => 0
  | .medium => 1
  | .large => 2
  | .veryLarge => 3

/-- Latitude bands, in the order of the `labels` list of the latitude
`pd.cut` call (lines 75-78): Southern, South-Central, Central, Northern
Maine. -/
inductive LatBand where
  | southern
  | southCentral
  | central
  | northern
deriving DecidableEq, Repr

/-- Ordinal rank of a latitude band. -/
def LatBand.rank : LatBand → Nat
  | .southern => 0
  | .southCentral => 1
  | .central => 2
  | .northern => 3

/-- Line 49: `gdf['area_km2'] = gdf_projected.geometry.area / 10**6`. -/
def area_km2 (r : Record) : ℚ :=
  r.projArea / 10 ^ 6

/-- Lines 60-67: `pd.cut(gdf['area_km2'], bins=[0, 1, 5, 10, inf],
labels=[Small, Medium, Large, Very Large])`.  With pandas' default
`right=True` and `include_lowest=False` the bins are the right-closed
intervals (0,1], (1,5], (5,10], (10,∞); a value outside all of them
(in particular 0 itself, or a negative value) gets no category. -/
def classify_size (a : ℚ) : Option SizeCategory :=
  if 0 < a ∧ a ≤ 1 then some .small
  else if 1 < a ∧ a ≤ 5 then some .medium
  else if 5 < a ∧ a ≤ 10 then some .large
  else if 10 < a then some .veryLarge
  else none

/-- Lines 72-74: the bin edges `np.linspace(min_lat, max_lat, 5)`. -/
def latBinEdges (m M : ℚ) : List ℚ :=
  [m, m + (M - m) / 4, m + 2 * (M - m) / 4, m + 3 * (M - m) / 4, M]

/-- Lines 70-79: `pd.cut(gdf['centroid_lat'],
bins=np.linspace(min_lat, max_lat, 5), labels=[...])`.  With pandas'
default `right=True` the bins are right-closed: record latitude `x` falls
in band `i` exactly when `edges[i] < x <= edges[i+1]`; a value equal to
the lowest edge (the batch minimum) gets no band. -/
def classify_latitude_band (m M x : ℚ) : Option LatBand :=
  if m < x ∧ x ≤ m + (M - m) / 4 then some .southern
  else if m + (M - m) / 4 < x ∧ x ≤ m + 2 * (M - m) / 4 then some .southCentral
  else if m + 2 * (M - m) / 4 < x ∧ x ≤ m + 3 * (M - m) / 4 then some .central
  else if m + 3 * (M - m) / 4 < x ∧ x ≤ M then some .northern
  else none

/-- Line 72: `gdf['centroid_lat'].min()`; `none` models the NaN a pandas
min produces on an empty series. -/
def latMin (records : List Record) : Option ℚ :=
  (records.map Record.centroidLat).min?

/-- Line 73: `gdf['centroid_lat'].max()`; `none` models the NaN a pandas
max produces on an empty series. -/
def latMax (records : List Record) : Option ℚ :=
  (records.map Record.centroidLat).max?

/-- Line 85: `gdf['area_km2'].median()`.  Pandas sorts the values and
returns the middle element, or the mean of the two middle elements when
the count is even.  Sorting is modelled by insertion sort (any correct
ascending sort of a numeric list yields the same sorted list). -/
def seriesMedian (xs : List ℚ) : ℚ :=
  let s := xs.insertionSort (· ≤ ·)
  if s.length % 2 = 1 then s.getD (s.length / 2) 0
  else (s.getD (s.length / 2 - 1) 0 + s.getD (s.length / 2) 0) / 2

/-- The fixed ordered category list of the size classification
(the `labels` argument on lines 63-66). -/
def sizeCategories : List SizeCategory :=
  [.small, .medium, .large, .veryLarge]

/-- The fixed ordered category list of the latitude classification
(the `labels` argument on lines 75-78). -/
def latBands : List LatBand :=
  [.southern, .southCentral, .central, .northern]

/-- Model of `Series.value_counts()` on the categorical `size_category`
column (line 90): one row per declared category (zero counts included,
NaN entries dropped), sorted by count in descending order (pandas'
default `sort=True`). -/
def size_value_counts (cats : List (Option SizeCategory)) : List (SizeCategory × Nat) :=
  (sizeCategories.map (fun c => (c, cats.count (some c)))).insertionSort
    (fun p q => q.2 ≤ p.2)

/-- Model of `.sort_index()` on the size table (line 90): the index is the
ordered categorical, so the rows are re-sorted by category rank. -/
def size_sort_index (l : List (SizeCategory × Nat)) : List (SizeCategory × Nat) :=
  l.insertionSort (fun p q => p.1.rank ≤ q.1.rank)

/-- Model of `Series.value_counts()` on the categorical `latitude_band`
column (line 127), as for `size_value_counts`. -/
def region_value_counts (cats : List (Option LatBand)) : List (LatBand × Nat) :=
  (latBands.map (fun c => (c, cats.count (some c)))).insertionSort
    (fun p q => q.2 ≤ p.2)

/-- Model of `.sort_index()` on the latitude-band table (line 127). -/
def region_sort_index (l : List (LatBand × Nat)) : List (LatBand × Nat) :=
  l.insertionSort (fun p q => p.1.rank ≤ q.1.rank)

/-- The aggregate report: the summary statistics of lines 82-86 together
with the two ordered frequency tables of lines 90 and 127. -/
structure ReportPayload where
  record_count : Nat
  total_area_km2 : ℚ
  mean_area_km2 : ℚ
  median_area_km2 : ℚ
  max_area_km2 : ℚ
  size_distribution : List (SizeCategory × Nat)
  region_distribution : List (LatBand × Nat)
deriving DecidableEq, Repr

/-- Errors the pipeline can surface.  `invalidInput` is the abstract
input-validation error of the specification's taxonomy; `degenerateRange`
models the `ValueError: Bin edges must be unique` that `pd.cut` raises
on line 70 when `np.linspace(min_lat, max_lat, 5)` has duplicate edges
(latitude range of width zero, or NaN min/max from an empty series). -/
inductive PipelineError where
  | invalidInput
  | degenerateRange
deriving DecidableEq, Repr

/-- The payload built once the latitude binning has succeeded, for a batch
with latitude range `[m, M]` (lines 82-86, 90 and 127). -/
def mkPayload (records : List Record) (m M : ℚ) : ReportPayload :=
  let areas := records.map area_km2
  { record_count := records.length
    total_area_km2 := areas.sum
    mean_area_km2 := areas.sum / (records.length : ℚ)
    median_area_km2 := seriesMedian areas
    max_area_km2 := areas.max?.getD 0
    size_distribution := size_sort_index (size_value_counts (areas.map classify_size))
    region_distribution := region_sort_index (region_value_counts
      (records.map (fun r => classify_latitude_band m M r.centroidLat))) }

/-- The module-level pipeline of lines 44-86 (continued by the chart
aggregations on lines 90 and 127), as a function from the input record
collection to the report payload.  There is no empty-input guard in the
script: the first failure point is the latitude `pd.cut` on line 70,
which raises when the `np.linspace` edges are degenerate — that is, when
the collection is empty (NaN min/max) or when `min_lat = max_lat`. -/
def pipeline (records : List Record) : Except PipelineError ReportPayload :=
  match latMin records, latMax records with
  | some m, some M =>
      if m = M then .error .degenerateRange
      else .ok (mkPayload records m M)
  | _, _ => .error .degenerateRange

/-- The `latitude_band` cell a single record receives from the batch-wide
`pd.cut` of lines 70-79: `none` when the record falls outside every bin
or when the binning itself fails. -/
def latitude_band_of (records : List Record) (r : Record) : Option LatBand :=
  match latMin records, latMax records with
  | some m, some M => if m = M then none else classify_latitude_band m M r.centroidLat
  | _, _ => none

/-! Helper lemmas. -/

/-- The category an area `0 < x` ends up in, phrased by thresholds alone;
used to relate `classify_size` on positive inputs to its bin ranks. -/
def sizeBinAt (x : ℚ) : SizeCategory :=
  if x ≤ 1 then .small else if x ≤ 5 then .medium else if x ≤ 10 then .large else .veryLarge

lemma classify_size_pos_eq (x : ℚ) (hx : 0 < x) :
    classify_size x = some (sizeBinAt x) := by
  unfold classify_size sizeBinAt
  rcases le_or_lt x 1 with h1 | h1
  · rw [if_pos ⟨hx, h1⟩, if_pos h1]
  · rw [if_neg (fun h => absurd h.2 (not_le.mpr h1)), if_neg (not_le.mpr h1)]
    rcases le_or_lt x 5 with h5 | h5
    · rw [if_pos ⟨h1, h5⟩, if_pos h5]
    · rw [if_neg (fun h => absurd h.2 (not_le.mpr h5)), if_neg (not_le.mpr h5)]
      rcases le_or_lt x 10 with h10 | h10
      · rw [if_pos ⟨h5, h10⟩, if_pos h10]
      · rw [if_neg (fun h => absurd h.2 (not_le.mpr h10)), if_neg (not_le.mpr h10), if_pos h10]

lemma sizeBinAt_rank_mono {a b : ℚ} (hab : a ≤ b) :
    (sizeBinAt a).rank ≤ (sizeBinAt b).rank := by
  unfold sizeBinAt
  split_ifs <;> first | decide | linarith

lemma latMin_le {records : List Record} {m : ℚ} (hm : latMin records = some m) :
    ∀ r ∈ records, m ≤ r.centroidLat := fun r hr =>
  (List.le_min?_iff (fun _ _ _ => le_min_iff) hm).1 (le_refl m) _
    (List.mem_map_of_mem _ hr)

lemma le_latMax {records : List Record} {M : ℚ} (hM : latMax records = some M) :
    ∀ r ∈ records, r.centroidLat ≤ M := fun r hr =>
  (List.max?_le_iff (fun _ _ _ => max_le_iff) hM).1 (le_refl M) _
    (List.mem_map_of_mem _ hr)

lemma classify_latitude_band_isSome {m M x : ℚ} (hmx : m < x) (hxM : x ≤ M) :
    (classify_latitude_band m M x).isSome = true := by
  unfold classify_latitude_band
  split_ifs with h1 h2 h3 h4
  · rfl
  · rfl
  · rfl
  · rfl
  · exfalso
    push_neg at h1 h2 h3 h4
    have c4 := h4 (h3 (h2 (h1 hmx)))
    linarith

lemma classify_latitude_band_at_min {m M : ℚ} (hlt : m < M) :
    classify_latitude_band m M m = none := by
  unfold classify_latitude_band
  split_ifs with h1 h2 h3 h4
  · exact absurd h1.1 (lt_irrefl m)
  · exfalso; rcases h2 with ⟨h, -⟩; linarith
  · exfalso; rcases h3 with ⟨h, -⟩; linarith
  · exfalso; rcases h4 with ⟨h, -⟩; linarith
  · rfl

/-! Claims. -/

/-- C1: the specification says `classify_size` uses left-inclusive,
right-exclusive bins, so that an area of exactly 1.0 km² is Medium.
The script's `pd.cut` call keeps pandas' default `right=True`, so its
bins are right-closed and an area of exactly 1.0 km² receives the label
`Small (< 1 km²)` — contradicting both the claim and the label text
itself.  This theorem evaluates the embedded classification at the
failing input. -/
theorem C1_size_one_is_small : classify_size 1 = some SizeCategory.small := rfl

/-- C2 counterexample: `classify_size` is not total over `[0, ∞)` as the
claim states: the boundary input 0 (the area pandas assigns to an empty
or degenerate geometry) falls outside every right-closed bin of the
`pd.cut` call, so it receives no size category. -/
theorem C2_zero_gets_no_category : classify_size 0 = none := rfl

/-- C2 (amended): `classify_size` is total and monotonic on the strictly
positive areas: for `0 < a ≤ b` both areas receive a category and the
ordinal rank never decreases; the left endpoint 0 itself is unclassified
(see the counterexample). -/
theorem C2_size_total_monotone_on_pos (a b : ℚ) (ha : 0 < a) (hab : a ≤ b) :
    ∃ ca cb, classify_size a = some ca ∧ classify_size b = some cb ∧
      ca.rank ≤ cb.rank :=
  ⟨sizeBinAt a, sizeBinAt b, classify_size_pos_eq a ha,
    classify_size_pos_eq b (ha.trans_le hab), sizeBinAt_rank_mono hab⟩

/-- C2 witness: the amended monotonicity theorem applied at the concrete
pair of areas 1/2 km² and 7 km². -/
theorem C2_witness :
    ∃ ca cb, classify_size (1/2) = some ca ∧ classify_size 7 = some cb ∧
      ca.rank ≤ cb.rank :=
  C2_size_total_monotone_on_pos (1/2) 7 (by norm_num) (by norm_num)

/-- A concrete two-record batch: areas 1 km² and 2 km², centroid
latitudes 43 and 46. -/
def pairRecords : List Record :=
  [⟨1000000, 43⟩, ⟨2000000, 46⟩]

/-- C3 counterexample: in a batch whose centroid latitudes are 43 and 46
(so min < max), the record sitting exactly at the batch minimum falls
outside every right-closed `pd.cut` bin and is assigned no latitude band,
refuting the claim that every record gets exactly one band. -/
theorem C3_min_record_unbanded :
    latMin pairRecords = some 43 ∧ latMax pairRecords = some 46 ∧
    latitude_band_of pairRecords ⟨1000000, 43⟩ = none := by
  refine ⟨?_, ?_, ?_⟩ <;>
    norm_num [pairRecords, latMin, latMax, latitude_band_of, min_def, max_def,
      classify_latitude_band]

/-- C3 (amended): for a batch with `min_lat < max_lat`, every record's
centroid latitude lies within `[min_lat, max_lat]`, every record strictly
above the minimum is assigned exactly one of the four bands, and a record
sitting exactly at the minimum is assigned no band (pandas' right-closed
bins exclude the lowest edge). -/
theorem C3_band_assignment (records : List Record) (m M : ℚ) (r : Record)
    (hm : latMin records = some m) (hM : latMax records = some M)
    (hlt : m < M) (hr : r ∈ records) :
    m ≤ r.centroidLat ∧ r.centroidLat ≤ M ∧
    (m < r.centroidLat → ∃ b, latitude_band_of records r = some b) ∧
    (r.centroidLat = m → latitude_band_of records r = none) := by
  have h1 := latMin_le hm r hr
  have h2 := le_latMax hM r hr
  refine ⟨h1, h2, ?_, ?_⟩
  · intro hmx
    rcases Option.isSome_iff_exists.mp (classify_latitude_band_isSome hmx h2) with ⟨b, hb⟩
    refine ⟨b, ?_⟩
    unfold latitude_band_of
    rw [hm, hM]
    show (if m = M then none else classify_latitude_band m M r.centroidLat) = some b
    rw [if_neg hlt.ne]
    exact hb
  · intro hxm
    unfold latitude_band_of
    rw [hm, hM]
    show (if m = M then none else classify_latitude_band m M r.centroidLat) = none
    rw [if_neg hlt.ne, hxm]
    exact classify_latitude_band_at_min hlt

/-- C3 witness: the amended theorem applied to the concrete two-record
batch, at the record with centroid latitude 46 (strictly above the batch
minimum 43). -/
theorem C3_witness :
    (43:ℚ) ≤ 46 ∧ (46:ℚ) ≤ 46 ∧
    ((43:ℚ) < 46 → ∃ b, latitude_band_of pairRecords ⟨2000000, 46⟩ = some b) ∧
    ((46:ℚ) = 43 → latitude_band_of pairRecords ⟨2000000, 46⟩ = none) :=
  C3_band_assignment pairRecords 43 46 ⟨2000000, 46⟩
    (by norm_num [pairRecords, latMin, min_def])
    (by norm_num [pairRecords, latMax, max_def])
    (by norm_num)
    (List.mem_cons_of_mem _ (List.mem_cons_self _ _))

/-- C4: when the batch minimum and maximum centroid latitudes coincide,
the five `np.linspace` bin edges are all equal, the latitude `pd.cut`
raises (duplicate bin edges), and the pipeline fails with the
degenerate-range error instead of returning a payload. -/
theorem C4_degenerate_range (records : List Record) (m : ℚ)
    (hm : latMin records = some m) (hM : latMax records = some m) :
    pipeline records = .error .degenerateRange := by
  unfold pipeline
  rw [hm, hM]
  show (if m = m then (Except.error PipelineError.degenerateRange)
    else .ok (mkPayload records m m)) = .error .degenerateRange
  rw [if_pos rfl]

/-- C4 witness: the degenerate-range theorem applied to a single-record
batch, whose minimum and maximum latitudes necessarily coincide. -/
theorem C4_witness : pipeline [⟨2000000, 45⟩] = .error .degenerateRange :=
  C4_degenerate_range [⟨2000000, 45⟩] 45 rfl rfl

/-- C5 counterexample: on the empty collection the pipeline does not fail
with the input-validation error the claim names: there is no empty-input
guard in the script, so the failure (shown in the amended theorem) comes
from the latitude binning instead. -/
theorem C5_empty_not_invalid_input :
    (pipeline ([] : List Record) = Except.error PipelineError.invalidInput) = False := by
  simp [pipeline, latMin, latMax]

/-- C5 (amended): on the empty collection the pipeline does fail without
returning a payload, but via the degenerate-range error of the latitude
`pd.cut` (the NaN min/max of an empty series give five duplicate
`np.linspace` edges), not via a dedicated `InvalidInputError` check. -/
theorem C5_empty_fails_degenerate :
    pipeline ([] : List Record) = .error .degenerateRange := rfl

lemma pipeline_ok_elim {records : List Record} {p : ReportPayload}
    (hp : pipeline records = .ok p) :
    ∃ m M, latMin records = some m ∧ latMax records = some M ∧ m ≠ M ∧
      p = mkPayload records m M := by
  unfold pipeline at hp
  cases hmin : latMin records with
  | none => rw [hmin] at hp; exact Except.noConfusion hp
  | some m =>
    cases hmax : latMax records with
    | none => rw [hmin, hmax] at hp; exact Except.noConfusion hp
    | some M =>
      rw [hmin, hmax] at hp
      change (if m = M then Except.error PipelineError.degenerateRange
        else Except.ok (mkPayload records m M)) = Except.ok p at hp
      by_cases hmM : m = M
      · rw [if_pos hmM] at hp; exact Except.noConfusion hp
      · rw [if_neg hmM] at hp
        exact ⟨m, M, rfl, rfl, hmM, (Except.ok.inj hp).symm⟩

/-- C6: for every collection of valid geometries (projected areas are
nonnegative, as geometric areas are) that the pipeline accepts, every
record's derived `area_km2` is nonnegative and the summary's
`total_area_km2` is exactly the sum of the per-record `area_km2` values
(rational arithmetic is exact, so the floating-point tolerance is met). -/
theorem C6_area_nonneg_total (records : List Record) (p : ReportPayload)
    (hpos : ∀ r ∈ records, 0 ≤ r.projArea)
    (hp : pipeline records = .ok p) :
    (∀ r ∈ records, 0 ≤ area_km2 r) ∧
    p.total_area_km2 = (records.map area_km2).sum := by
  obtain ⟨m, M, -, -, -, rfl⟩ := pipeline_ok_elim hp
  exact ⟨fun r hr => div_nonneg (hpos r hr) (by norm_num), rfl⟩

/-- C6 witness: the area theorem applied to the concrete two-record
batch. -/
theorem C6_witness :
    (∀ r ∈ pairRecords, 0 ≤ area_km2 r) ∧
    (mkPayload pairRecords 43 46).total_area_km2 = (pairRecords.map area_km2).sum :=
  C6_area_nonneg_total pairRecords (mkPayload pairRecords 43 46)
    (by norm_num [pairRecords]) rfl

/-- The three-record end-to-end scenario of the specification: projected
areas 0.5, 3 and 12 km² (in m²), centroid latitudes 43, 44.5 and 46. -/
def scenario : List Record :=
  [⟨500000, 43⟩, ⟨3000000, 89/2⟩, ⟨12000000, 46⟩]

/-- C7 counterexample: in the end-to-end scenario the first record
(centroid latitude 43, the batch minimum) is assigned no latitude band at
all, not band 1 as the claim states: 43 is the exclusive left edge of the
first right-closed `pd.cut` bin. -/
theorem C7_first_record_unbanded :
    latitude_band_of scenario ⟨500000, 43⟩ = none := by
  norm_num [scenario, latitude_band_of, latMin, latMax, min_def, max_def,
    classify_latitude_band]

/-- C7 (amended): the scenario yields size distribution Small 1, Medium 1,
Large 0, Very Large 1, total area 15.5 km², mean 31/6 km², median 3 km²,
maximum 12 km², and latitude bins of width 0.75 over [43, 46]; the three
records land in no band (43 is the exclusive lowest edge), band 2
(44.5 is the right-closed edge of the second bin), and band 4
respectively, so the region distribution is 0, 1, 0, 1. -/
theorem C7_scenario :
    pipeline scenario =
      .ok { record_count := 3, total_area_km2 := 31/2, mean_area_km2 := 31/6,
            median_area_km2 := 3, max_area_km2 := 12,
            size_distribution := [(.small, 1), (.medium, 1), (.large, 0), (.veryLarge, 1)],
            region_distribution := [(.southern, 0), (.southCentral, 1), (.central, 0), (.northern, 1)] } ∧
    latBinEdges 43 46 = [43, 175/4, 89/2, 181/4, 46] ∧
    latitude_band_of scenario ⟨3000000, 89/2⟩ = some .southCentral ∧
    latitude_band_of scenario ⟨12000000, 46⟩ = some .northern := by
  refine ⟨?_, ?_, ?_, ?_⟩
  · norm_num [pipeline, latMin, latMax, mkPayload, area_km2, seriesMedian,
      classify_size, classify_latitude_band, size_value_counts, size_sort_index,
      region_value_counts, region_sort_index, sizeCategories, latBands, scenario,
      SizeCategory.rank, LatBand.rank, min_def, max_def, List.count_cons]
    decide
  · norm_num [latBinEdges]
  · norm_num [scenario, latitude_band_of, latMin, latMax, min_def, max_def,
      classify_latitude_band]
  · norm_num [scenario, latitude_band_of, latMin, latMax, min_def, max_def,
      classify_latitude_band]

/-- C8: the pipeline is a pure function of its input: two runs on the
same record collection that return payloads return payloads agreeing on
the count, total, mean, median, max and both distributions. -/
theorem C8_deterministic (records : List Record) (p q : ReportPayload)
    (hp : pipeline records = .ok p) (hq : pipeline records = .ok q) :
    p.record_count = q.record_count ∧ p.total_area_km2 = q.total_area_km2 ∧
    p.mean_area_km2 = q.mean_area_km2 ∧ p.median_area_km2 = q.median_area_km2 ∧
    p.max_area_km2 = q.max_area_km2 ∧ p.size_distribution = q.size_distribution ∧
    p.region_distribution = q.region_distribution := by
  cases Except.ok.inj (hp.symm.trans hq)
  exact ⟨rfl, rfl, rfl, rfl, rfl, rfl, rfl⟩

/-- C8 witness: determinism applied to two runs of the pipeline on the
concrete two-record batch. -/
theorem C8_witness :
    (mkPayload pairRecords 43 46).record_count = (mkPayload pairRecords 43 46).record_count ∧
    (mkPayload pairRecords 43 46).total_area_km2 = (mkPayload pairRecords 43 46).total_area_km2 ∧
    (mkPayload pairRecords 43 46).mean_area_km2 = (mkPayload pairRecords 43 46).mean_area_km2 ∧
    (mkPayload pairRecords 43 46).median_area_km2 = (mkPayload pairRecords 43 46).median_area_km2 ∧
    (mkPayload pairRecords 43 46).max_area_km2 = (mkPayload pairRecords 43 46).max_area_km2 ∧
    (mkPayload pairRecords 43 46).size_distribution = (mkPayload pairRecords 43 46).size_distribution ∧
    (mkPayload pairRecords 43 46).region_distribution = (mkPayload pairRecords 43 46).region_distribution :=
  C8_deterministic pairRecords (mkPayload pairRecords 43 46) (mkPayload pairRecords 43 46) rfl rfl

/-! Lemmas on the ordering of the frequency tables. -/

lemma size_keys_sorted_eq (keys : List SizeCategory)
    (hp : keys.Perm sizeCategories)
    (hs : keys.Pairwise (fun a b => a.rank ≤ b.rank)) :
    keys = sizeCategories := by
  have h4 : keys.length = 4 := by rw [hp.length_eq]; rfl
  rcases keys with _ | ⟨a, _ | ⟨b, _ | ⟨c, _ | ⟨d, _ | ⟨e, tl⟩⟩⟩⟩⟩
  · simp at h4
  · simp at h4
  · simp at h4
  · simp at h4
  · revert hp hs; cases a <;> cases b <;> cases c <;> cases d <;> decide
  · simp at h4

lemma lat_keys_sorted_eq (keys : List LatBand)
    (hp : keys.Perm latBands)
    (hs : keys.Pairwise (fun a b => a.rank ≤ b.rank)) :
    keys = latBands := by
  have h4 : keys.length = 4 := by rw [hp.length_eq]; rfl
  rcases keys with _ | ⟨a, _ | ⟨b, _ | ⟨c, _ | ⟨d, _ | ⟨e, tl⟩⟩⟩⟩⟩
  · simp at h4
  · simp at h4
  · simp at h4
  · simp at h4
  · revert hp hs; cases a <;> cases b <;> cases c <;> cases d <;> decide
  · simp at h4

lemma size_value_counts_keys (cats : List (Option SizeCategory)) :
    ((size_value_counts cats).map Prod.fst).Perm sizeCategories := by
  unfold size_value_counts
  refine ((List.perm_insertionSort _ _).map Prod.fst).trans (List.Perm.of_eq ?_)
  rfl

lemma region_value_counts_keys (cats : List (Option LatBand)) :
    ((region_value_counts cats).map Prod.fst).Perm latBands := by
  unfold region_value_counts
  refine ((List.perm_insertionSort _ _).map Prod.fst).trans (List.Perm.of_eq ?_)
  rfl

lemma size_sort_index_keys (l : List (SizeCategory × Nat))
    (hl : (l.map Prod.fst).Perm sizeCategories) :
    (size_sort_index l).map Prod.fst = sizeCategories := by
  haveI : IsTotal (SizeCategory × Nat) (fun p q => p.1.rank ≤ q.1.rank) :=
    ⟨fun _ _ => Nat.le_total _ _⟩
  haveI : IsTrans (SizeCategory × Nat) (fun p q => p.1.rank ≤ q.1.rank) :=
    ⟨fun _ _ _ => Nat.le_trans⟩
  apply size_keys_sorted_eq
  · exact ((List.perm_insertionSort _ l).map Prod.fst).trans hl
  · exact List.Pairwise.map Prod.fst (fun _ _ h => h)
      (List.sorted_insertionSort (fun p q : SizeCategory × Nat => p.1.rank ≤ q.1.rank) l)

lemma region_sort_index_keys (l : List (LatBand × Nat))
    (hl : (l.map Prod.fst).Perm latBands) :
    (region_sort_index l).map Prod.fst = latBands := by
  haveI : IsTotal (LatBand × Nat) (fun p q => p.1.rank ≤ q.1.rank) :=
    ⟨fun _ _ => Nat.le_total _ _⟩
  haveI : IsTrans (LatBand × Nat) (fun p q => p.1.rank ≤ q.1.rank) :=
    ⟨fun _ _ _ => Nat.le_trans⟩
  apply lat_keys_sorted_eq
  · exact ((List.perm_insertionSort _ l).map Prod.fst).trans hl
  · exact List.Pairwise.map Prod.fst (fun _ _ h => h)
      (List.sorted_insertionSort (fun p q : LatBand × Nat => p.1.rank ≤ q.1.rank) l)

/-- C9: in every payload the pipeline returns, the size and region
frequency tables are keyed by the fixed ordinal category sequence —
Small, Medium, Large, Very Large, and the four bands from southernmost to
northernmost — regardless of the counts: the count-descending order of
`value_counts()` is re-sorted by `sort_index()` on the ordered
categorical index. -/
theorem C9_distributions_in_category_order (records : List Record) (p : ReportPayload)
    (hp : pipeline records = .ok p) :
    p.size_distribution.map Prod.fst = sizeCategories ∧
    p.region_distribution.map Prod.fst = latBands := by
  obtain ⟨m, M, -, -, -, rfl⟩ := pipeline_ok_elim hp
  exact ⟨size_sort_index_keys _ (size_value_counts_keys _),
    region_sort_index_keys _ (region_value_counts_keys _)⟩

/-- C9 witness: the ordering theorem applied to the payload of the
concrete two-record batch. -/
theorem C9_witness :
    (mkPayload pairRecords 43 46).size_distribution.map Prod.fst = sizeCategories ∧
    (mkPayload pairRecords 43 46).region_distribution.map Prod.fst = latBands :=
  C9_distributions_in_category_order pairRecords (mkPayload pairRecords 43 46) rfl

/-! Lemmas on the sums of the frequency tables. -/

lemma size_counts_sum_le (cats : List (Option SizeCategory)) :
    cats.count (some .small) + cats.count (some .medium) +
      cats.count (some .large) + cats.count (some .veryLarge) ≤ cats.length := by
  induction cats with
  | nil => simp
  | cons hd tl ih =>
    rcases hd with _ | c
    · simp only [List.count_cons, List.length_cons]
      simp only [beq_iff_eq, reduceCtorEq, if_false]
      omega
    · cases c <;> simp only [List.count_cons, List.length_cons, beq_iff_eq,
        Option.some.injEq, reduceCtorEq, if_false, if_true] <;> omega

lemma region_counts_sum_le (cats : List (Option LatBand)) :
    cats.count (some .southern) + cats.count (some .southCentral) +
      cats.count (some .central) + cats.count (some .northern) ≤ cats.length := by
  induction cats with
  | nil => simp
  | cons hd tl ih =>
    rcases hd with _ | c
    · simp only [List.count_cons, List.length_cons]
      simp only [beq_iff_eq, reduceCtorEq, if_false]
      omega
    · cases c <;> simp only [List.count_cons, List.length_cons, beq_iff_eq,
        Option.some.injEq, reduceCtorEq, if_false, if_true] <;> omega

lemma size_distribution_sum (cats : List (Option SizeCategory)) :
    ((size_sort_index (size_value_counts cats)).map Prod.snd).sum =
      cats.count (some .small) + cats.count (some .medium) +
        cats.count (some .large) + cats.count (some .veryLarge) := by
  have h1 : (size_sort_index (size_value_counts cats)).Perm
      (sizeCategories.map (fun c => (c, cats.count (some c)))) :=
    (List.perm_insertionSort _ _).trans (List.perm_insertionSort _ _)
  rw [(h1.map Prod.snd).sum_eq]
  simp [sizeCategories]
  omega

lemma region_distribution_sum (cats : List (Option LatBand)) :
    ((region_sort_index (region_value_counts cats)).map Prod.snd).sum =
      cats.count (some .southern) + cats.count (some .southCentral) +
        cats.count (some .central) + cats.count (some .northern) := by
  have h1 : (region_sort_index (region_value_counts cats)).Perm
      (latBands.map (fun c => (c, cats.count (some c)))) :=
    (List.perm_insertionSort _ _).trans (List.perm_insertionSort _ _)
  rw [(h1.map Prod.snd).sum_eq]
  simp [latBands]
  omega

/-- A concrete batch containing records the classifications drop: the
first record has projected area 0 (a degenerate geometry) and sits at the
batch-minimum latitude, so it receives neither a size category nor a
latitude band. -/
def unclassifiedPair : List Record :=
  [⟨0, 43⟩, ⟨2000000, 46⟩]

/-- C10: the count and the area statistics of the summary are computed
over all records — `record_count` is the collection size and the total,
mean, median and max range over every `area_km2` value, classified or
not — while each frequency table sums to at most `record_count`, and on
the concrete batch `unclassifiedPair` (one record with area 0 at the
minimum latitude) both tables sum to strictly fewer than `record_count`:
unclassified records are silently dropped from the tables. -/
theorem C10_stats_all_records_tables_drop (records : List Record) (p : ReportPayload)
    (hp : pipeline records = .ok p) :
    (p.record_count = records.length ∧
      p.total_area_km2 = (records.map area_km2).sum ∧
      p.mean_area_km2 = (records.map area_km2).sum / (records.length : ℚ) ∧
      p.median_area_km2 = seriesMedian (records.map area_km2) ∧
      p.max_area_km2 = ((records.map area_km2).max?).getD 0 ∧
      (p.size_distribution.map Prod.snd).sum ≤ p.record_count ∧
      (p.region_distribution.map Prod.snd).sum ≤ p.record_count) ∧
    ((mkPayload unclassifiedPair 43 46).size_distribution.map Prod.snd).sum
        < (mkPayload unclassifiedPair 43 46).record_count ∧
      ((mkPayload unclassifiedPair 43 46).region_distribution.map Prod.snd).sum
        < (mkPayload unclassifiedPair 43 46).record_count ∧
      pipeline unclassifiedPair = .ok (mkPayload unclassifiedPair 43 46) := by
  obtain ⟨m, M, -, -, -, rfl⟩ := pipeline_ok_elim hp
  refine ⟨⟨rfl, rfl, rfl, rfl, rfl, ?_, ?_⟩, ?_, ?_, rfl⟩
  · show ((size_sort_index (size_value_counts ((records.map area_km2).map classify_size))).map
      Prod.snd).sum ≤ records.length
    rw [size_distribution_sum]
    calc _ ≤ ((records.map area_km2).map classify_size).length := size_counts_sum_le _
    _ = records.length := by simp
  · show ((region_sort_index (region_value_counts
      (records.map fun r => classify_latitude_band m M r.centroidLat))).map Prod.snd).sum
      ≤ records.length
    rw [region_distribution_sum]
    calc _ ≤ (records.map fun r => classify_latitude_band m M r.centroidLat).length :=
      region_counts_sum_le _
    _ = records.length := by simp
  · show ((size_sort_index (size_value_counts
      ((unclassifiedPair.map area_km2).map classify_size))).map Prod.snd).sum
      < unclassifiedPair.length
    rw [size_distribution_sum]
    norm_num [unclassifiedPair, area_km2, classify_size, List.count_cons]
    decide
  · show ((region_sort_index (region_value_counts
      (unclassifiedPair.map fun r => classify_latitude_band 43 46 r.centroidLat))).map
      Prod.snd).sum < unclassifiedPair.length
    rw [region_distribution_sum]
    norm_num [unclassifiedPair, classify_latitude_band, List.count_cons]
    decide

/-- C10 witness: the statistics theorem applied to the concrete
two-record batch and its payload. -/
theorem C10_witness :
    ((mkPayload pairRecords 43 46).record_count = pairRecords.length ∧
      (mkPayload pairRecords 43 46).total_area_km2 = (pairRecords.map area_km2).sum ∧
      (mkPayload pairRecords 43 46).mean_area_km2 =
        (pairRecords.map area_km2).sum / (pairRecords.length : ℚ) ∧
      (mkPayload pairRecords 43 46).median_area_km2 = seriesMedian (pairRecords.map area_km2) ∧
      (mkPayload pairRecords 43 46).max_area_km2 = ((pairRecords.map area_km2).max?).getD 0 ∧
      ((mkPayload pairRecords 43 46).size_distribution.map Prod.snd).sum
        ≤ (mkPayload pairRecords 43 46).record_count ∧
      ((mkPayload pairRecords 43 46).region_distribution.map Prod.snd).sum
        ≤ (mkPayload pairRecords 43 46).record_count) ∧
    ((mkPayload unclassifiedPair 43 46).size_distribution.map Prod.snd).sum
        < (mkPayload unclassifiedPair 43 46).record_count ∧
      ((mkPayload unclassifiedPair 43 46).region_distribution.map Prod.snd).sum
        < (mkPayload unclassifiedPair 43 46).record_count ∧
      pipeline unclassifiedPair = .ok (mkPayload unclassifiedPair 43 46) :=
  C10_stats_all_records_tables_drop pairRecords (mkPayload pairRecords 43 46) rfl

end DeerWintering
